import Mathlib

/-!
Shallow embedding of the slide composition and grid-placement engine of the
`needful` HTML-presentation library, together with proofs checking the
natural-language specification against it.

Provenance of the definitions (file paths relative to the repository root):

* `check_sanity_int`, `check_exists` — `src/needful/_utils/__init__.py`.
* `cssNormalize`, `checkAndSet`, `styleStr` — `GridObject._check_and_set` and
  `GridObject._style_str` in `src/needful/_html_objects/grid_object.py`.
* `TextBox` — `src/needful/_slide_mixins/textboxes.py`.  The repository also
  carries a second, stale copy of the class in
  `src/needful/_html_objects/textbox.py`; that draft's constructor takes no
  `css_class` argument and calls `GridObject._check_and_set` with four
  arguments where the current signature requires five, so it matches neither
  the `Slide.add_textbox` call site (which passes eight arguments) nor the
  shared base class.  The `_slide_mixins` copy matches both and is the one
  embedded here; the same holds for `Image` below.
* `Image` — `src/needful/_slide_mixins/images.py`.
* `MPLFigure` — `src/needful/_slide_mixins/_mpl_figure.py`.
* `PlotlyFigure` — `src/needful/_html_objects/plotly_figure.py` for the
  stored fields and `get_div`; its `get_plot_js` (named `get_js` in that
  stale draft) extracts the `Plotly.newPlot(...)` call from the external
  `fig.to_html(...)` output and substitutes the generated `fig_id` for the
  original div id, so the statement is modelled with the `newPlot` argument
  list held as an opaque string (see the doc comment on `get_plot_js`).
* `BokehFigure` — the adapter file is absent from the source tree (only its
  caller `Slide.add_plot` is present), so it is modelled from the spec.
* `Slide` and its methods — `src/needful/_slide.py` (whose `add_textbox`,
  `add_plot`, `add_image` bodies coincide with the mixin methods in
  `src/needful/_slide_mixins/`).
* `Presentation.generate_html` — `src/needful/_presentation.py`.

Modelling conventions:

* Python `int` is `Int`; Python lists are `List`; `None` is `Option.none`.
* Python exceptions become an explicit `Err` sum returned through `Except`
  (for element constructors) or through a `Slide × Option Err` pair (for the
  mutating slide methods, where the returned slide reflects exactly the
  mutations performed before the raise).
* `check_type(...)` calls raise only on arguments of the wrong dynamic type;
  the embedding's static types rule those calls out, so they are omitted.
* External collaborators are parameters: Markdown conversion, base64
  encoding, PIL image sizing, `fig.to_html` extraction and the Jinja
  template are opaque functions; `secrets.token_hex(5)` is an explicit
  fresh-identifier argument; the file system is a list of existing paths,
  identified with their absolute forms (so `Path(p).absolute()` is `p`).
* Python `str.strip()` is `pyStrip` (ASCII whitespace), `str.lower()` is
  `pyLower`, `"sep".join(xs)` is `pyJoin`, `a in s` on strings is
  `strOccurs`, and `s.replace(old, new)` with a one-character `old` is
  `replaceChar`.
-/

namespace Needful

/-- Internal error sum for the exceptions raised by the engine, tagged with
the taxonomy of section 7 of the specification.  `typeError` covers Python
`TypeError`s from `Slide.add_plot`'s dispatch, `invalidPlacement` the
`ValueError` of `check_sanity_int`, `positionOccupied` the `ValueError` of
`Slide._check_grid_pos`, `resourceNotFound` the `FileNotFoundError` of
`check_exists`, `configurationError` the `ValueError`s of `Slide.__init__`,
and `valueErr` the remaining `ValueError` of `MPLFigure.__init__`. -/
inductive Err where
  | typeError (msg : String)
  | invalidPlacement (msg : String)
  | positionOccupied (msg : String)
  | resourceNotFound (msg : String)
  | configurationError (msg : String)
  | valueErr (msg : String)
deriving DecidableEq

/-- Decidable equality of constructor outcomes, for concrete evaluation. -/
instance {ε α : Type} [DecidableEq ε] [DecidableEq α] : DecidableEq (Except ε α) := fun x y =>
  match x, y with
  | .error a, .error b =>
    if h : a = b then .isTrue (by rw [h]) else .isFalse (by intro hh; exact h (Except.error.inj hh))
  | .error _, .ok _ => .isFalse (by intro hh; exact Except.noConfusion hh)
  | .ok _, .error _ => .isFalse (by intro hh; exact Except.noConfusion hh)
  | .ok a, .ok b =>
    if h : a = b then .isTrue (by rw [h]) else .isFalse (by intro hh; exact h (Except.ok.inj hh))

/-- Python `"sep".join(xs)`. -/
def pyJoin (sep : String) : List String → String
  | [] => ""
  | [x] => x
  | x :: y :: xs => x ++ sep ++ pyJoin sep (y :: xs)

/-- Python `s.replace(old, new)` restricted to a one-character `old`,
on the underlying character list. -/
def replaceCharList (c : Char) (new : List Char) : List Char → List Char
  | [] => []
  | a :: t => if a = c then new ++ replaceCharList c new t else a :: replaceCharList c new t

/-- Python `s.replace(old, new)` restricted to a one-character `old`. -/
def replaceChar (c : Char) (new : String) (s : String) : String :=
  String.mk (replaceCharList c new.data s.data)

/-- Python `s.strip()`: drop leading and trailing whitespace (restricted
to ASCII whitespace, which covers every string the engine strips). -/
def pyStrip (s : String) : String :=
  String.mk (((s.data.dropWhile Char.isWhitespace).reverse.dropWhile Char.isWhitespace).reverse)

/-- Python `s.lower()` (character-wise lowercasing, which covers the
ASCII format names the engine compares). -/
def pyLower (s : String) : String :=
  String.mk (s.data.map Char.toLower)

/-- The backtick-to-HTML-entity conversion `text.replace(chr(96), "&#96;")`
performed at the end of `TextBox.get_div`. -/
def convertBackticks (s : String) : String :=
  replaceChar '\x60' ("&#96;") s

/-- Python `pat in hay` for strings, on the underlying character lists:
does `pat` occur as a contiguous run inside `hay`? -/
def listOccurs (pat : List Char) : List Char → Bool
  | [] => pat.isEmpty
  | c :: t => pat.isPrefixOf (c :: t) || listOccurs pat t

/-- Python `pat in hay` for strings. -/
def strOccurs (pat hay : String) : Bool :=
  listOccurs pat.data hay.data

/-- Number of character positions of `hay` at which `pat` starts
(occurrences may overlap; used only to count draw statements). -/
def countOccurr (pat : List Char) : List Char → Nat
  | [] => 0
  | c :: t => (if pat.isPrefixOf (c :: t) then 1 else 0) + countOccurr pat t

/-- The message of the `ValueError` raised by `check_sanity_int`. -/
def sanityMsg (var_name : String) (var : Int) : String :=
  var_name ++ " must be greater than 0. Received " ++ var_name ++ " = " ++ toString var ++ "."

/-- The message of the `FileNotFoundError` raised by `check_exists`. -/
def notFoundMsg (name path : String) : String :=
  name ++ " not found at " ++ path ++ "."

/-- `check_sanity_int` from `src/needful/_utils/__init__.py` (lines 39-43):
the guarded value must be at least 1, otherwise a `ValueError` — the
`InvalidPlacement` error of the specification — is raised.  The leading
`check_type` call is discharged by the `Int` type. -/
def check_sanity_int (var_name : String) (var : Int) : Except Err Unit :=
  if var < 1 then
    .error (.invalidPlacement (sanityMsg var_name var))
  else
    .ok ()

/-- `check_exists` from `src/needful/_utils/__init__.py` (lines 29-36),
specialised to `file=True` as every caller in the core passes files.  The
file system is the list `fs` of existing paths, identified with their
absolute forms, so the message's `str(p.absolute())` is `path` itself. -/
def check_exists (fs : List String) (path : String) (name : String) : Except Err Unit :=
  if path ∈ fs then
    .ok ()
  else
    .error (.resourceNotFound (notFoundMsg name path))

/-- The `css_class` normalisation of `GridObject._check_and_set`
(`src/needful/_html_objects/grid_object.py`, lines 28-32):

    if css_class:
        if css_class.strip() == "":
            css_class = None
    self.css_class = css_class

The outer guard is Python truthiness, so `None` and the empty string pass
through unchanged and only a nonempty, all-whitespace string becomes
`None`. -/
def cssNormalize : Option String → Option String
  | none => none
  | some s => if s = "" then some "" else if pyStrip s = "" then none else some s

/-- The placement fields every grid object stores
(`row`, `column`, `row_span`, `col_span`, `css_class`). -/
structure Placement where
  row : Int
  column : Int
  row_span : Int
  col_span : Int
  css_class : Option String
deriving DecidableEq

/-- `GridObject._check_and_set` (`src/needful/_html_objects/grid_object.py`,
lines 13-32): the four placement integers are validated in order by
`check_sanity_int`, then stored together with the normalised `css_class`. -/
def checkAndSet (row column row_span col_span : Int) (css_class : Option String) : Except Err Placement :=
  match check_sanity_int ("row") row with
  | .error e => .error e
  | .ok _ =>
  match check_sanity_int ("column") column with
  | .error e => .error e
  | .ok _ =>
  match check_sanity_int ("row_span") row_span with
  | .error e => .error e
  | .ok _ =>
  match check_sanity_int ("col_span") col_span with
  | .error e => .error e
  | .ok _ =>
  .ok { row := row, column := column, row_span := row_span, col_span := col_span, css_class := cssNormalize css_class }

/-- `GridObject._style_str` (`src/needful/_html_objects/grid_object.py`,
lines 38-48): the inline CSS grid placement followed by an optional class
attribute (emitted only when `css_class` is truthy). -/
def styleStr (row column row_span col_span : Int) (css_class : Option String) : String :=
  let css_str := "grid-column : " ++ toString column ++ " / " ++ toString (column + col_span) ++ "; grid-row : " ++ toString row ++ " / " ++ toString (row + row_span) ++ ";"
  let class_str :=
    match css_class with
    | some s => if s = "" then "" else " class=\"" ++ s ++ "\""
    | none => ""
  "style=\"" ++ css_str ++ "\"" ++ class_str

/-- A textbox on the slide: `TextBox` from
`src/needful/_slide_mixins/textboxes.py` (lines 10-58).  The stored
`css_class` is always a string after construction because the constructor
replaces a falsy value by `"textbox"`. -/
structure TextBox where
  content : String
  row : Int
  column : Int
  row_span : Int
  col_span : Int
  css_class : String
  markdown : Bool
  keep_linebreaks : Bool
deriving DecidableEq

/-- The `css_class` adjustment of `TextBox.__init__`
(`src/needful/_slide_mixins/textboxes.py`, lines 49-53):

    if self.css_class:
        if "textbox" not in self.css_class:
            self.css_class += " textbox"
    else:
        self.css_class = "textbox"

applied to the value `GridObject._check_and_set` stored. -/
def textboxify : Option String → String
  | none => "textbox"
  | some s => if s = "" then "textbox" else if strOccurs ("textbox") s then s else s ++ " textbox"

/-- `TextBox.__init__` (`src/needful/_slide_mixins/textboxes.py`,
lines 34-58): placement validation via `_check_and_set`, then the
`"textbox"` class adjustment.  The `check_type` calls on `content`,
`markdown` and `keep_linebreaks` are discharged by the types. -/
def TextBox.init (content : String) (row column row_span col_span : Int) (markdown keep_linebreaks : Bool) (css_class : Option String) : Except Err TextBox :=
  match checkAndSet row column row_span col_span css_class with
  | .error e => .error e
  | .ok p =>
    .ok { content := content, row := p.row, column := p.column, row_span := p.row_span, col_span := p.col_span, css_class := textboxify p.css_class, markdown := markdown, keep_linebreaks := keep_linebreaks }

/-- `TextBox.get_div` (`src/needful/_slide_mixins/textboxes.py`,
lines 60-81).  `md` stands for `Markdown(extensions=...).convert`, an
external collaborator.  Note the backtick conversion runs after the
Markdown conversion and unconditionally. -/
def TextBox.get_div (md : String → String) (tb : TextBox) : String :=
  let text := if tb.keep_linebreaks && !tb.markdown then replaceChar '\n' ("<br>") tb.content else tb.content
  let text := if tb.markdown then md text else text
  let text := convertBackticks text
  "<div " ++ styleStr tb.row tb.column tb.row_span tb.col_span (some tb.css_class) ++ ">" ++ text ++ "</div>"

/-- An image on the slide: `Image` from
`src/needful/_slide_mixins/images.py` (lines 13-52). -/
structure Image where
  image_file : String
  row : Int
  column : Int
  row_span : Int
  col_span : Int
  css_class : Option String
  width_pct : Int
deriving DecidableEq

/-- `Image.__init__` (`src/needful/_slide_mixins/images.py`, lines 34-52):
the eager `check_exists` on the path runs before `_check_and_set`, which in
turn runs before the `width_pct` sanity check.  `fs` is the file-system
model. -/
def Image.init (fs : List String) (image_path : String) (row column row_span col_span : Int) (width_pct : Int) (css_class : Option String) : Except Err Image :=
  match check_exists fs image_path ("Image") with
  | .error e => .error e
  | .ok _ =>
  match checkAndSet row column row_span col_span css_class with
  | .error e => .error e
  | .ok p =>
  match check_sanity_int ("width_pct") width_pct with
  | .error e => .error e
  | .ok _ =>
  .ok { image_file := image_path, row := p.row, column := p.column, row_span := p.row_span, col_span := p.col_span, css_class := p.css_class, width_pct := width_pct }

/-- `Image.get_div` (`src/needful/_slide_mixins/images.py`, lines 54-71).
`b64` models `b64encode(open(path).read()).decode()` and `imgWidth` models
`PIL.Image.open(path).size[0]`, both external reads performed lazily at
render time.  The source computes `int(self.width_pct / 100 * size[0])`
through a Python float; the embedding uses exact integer arithmetic
truncated toward zero, which agrees except for float rounding at the
margin (no claim depends on the scaled width). -/
def Image.get_div (b64 : String → String) (imgWidth : String → Int) (im : Image) : String :=
  let img := b64 im.image_file
  let img_width := Int.tdiv (im.width_pct * imgWidth im.image_file) 100
  let img_style_str := "style=\"justify-self:center\""
  "<div " ++ styleStr im.row im.column im.row_span im.col_span im.css_class ++ "><center><img src=\"data:image;base64, " ++ img ++ "\" " ++ img_style_str ++ " width=" ++ toString img_width ++ "px></center></div>"

/-- A serialisable option map (Python `dict` with string keys and values,
which is all the core ever reads from the backend option dictionaries). -/
abbrev ConfigDict := List (String × String)

/-- A Matplotlib figure rendered at construction time: `MPLFigure` from
`src/needful/_slide_mixins/_mpl_figure.py` (lines 11-63).  `fig_out` holds
the output of the external `fig.savefig(...)` call. -/
structure MPLFigure where
  fig_out : String
  fmt : String
  row : Int
  column : Int
  row_span : Int
  col_span : Int
  css_class : Option String
  config : ConfigDict
deriving DecidableEq

/-- The message of the `ValueError` raised by `MPLFigure.__init__` when
the PDF format is requested. -/
def pdfMsg : String :=
  "PDF format not supported for Matplotlib figures. Try format=\x27svg\x27 or format=\x27png\x27."

/-- The format selection of `MPLFigure.__init__`
(`src/needful/_slide_mixins/_mpl_figure.py`, lines 47-60): SVG and PNG are
supported (an unrecognised format falls back to PNG), PDF is rejected with
a `ValueError`. -/
def mplFormat (config : Option ConfigDict) : Except Err String :=
  match List.lookup ("format") (config.getD []) with
  | some f =>
    if pyLower f = "svg" then .ok ("svg")
    else if pyLower f = "pdf" then .error (.valueErr pdfMsg)
    else .ok ("png")
  | none => .ok ("png")

/-- `MPLFigure.__init__` (`src/needful/_slide_mixins/_mpl_figure.py`,
lines 32-63): the format is read from `config` via `mplFormat`, the
external `savefig` output — supplied here as `savefigOut` — is captured,
and only then does `_check_and_set` validate the placement (the format
check and the `savefig` call precede placement validation in the
source). -/
def MPLFigure.init (savefigOut : String) (row column row_span col_span : Int) (css_class : Option String) (config : Option ConfigDict) : Except Err MPLFigure :=
  match mplFormat config with
  | .error e => .error e
  | .ok fmt =>
  match checkAndSet row column row_span col_span css_class with
  | .error e => .error e
  | .ok p =>
  .ok { fig_out := savefigOut, fmt := fmt, row := p.row, column := p.column, row_span := p.row_span, col_span := p.col_span, css_class := p.css_class, config := config.getD [] }

/-- `MPLFigure.get_div` (`src/needful/_slide_mixins/_mpl_figure.py`,
lines 65-86).  `b64data` models `b64encode(bytes).decode()` applied to the
stored `savefig` output. -/
def MPLFigure.get_div (b64data : String → String) (mf : MPLFigure) : String :=
  if mf.fmt = "png" then
    let img := b64data mf.fig_out
    let img_style_str := "style=\"justify-self:center\""
    "<div " ++ styleStr mf.row mf.column mf.row_span mf.col_span mf.css_class ++ "><center><img src=\"data:image;base64, " ++ img ++ "\" " ++ img_style_str ++ "></center></div>"
  else
    "<div " ++ styleStr mf.row mf.column mf.row_span mf.col_span mf.css_class ++ "><center>" ++ mf.fig_out ++ "</center></div>"

/-- A Plotly figure: stored fields and placement from `PlotlyFigure` in
`src/needful/_html_objects/plotly_figure.py` (lines 12-46), extended with
the `css_class` the `Slide.add_plot` call site passes (the adapter copy
carrying that parameter, `_slide_mixins/_plotly_figure.py`, is absent from
the source tree).  `newPlotArgs` holds, opaquely, the argument list that
the external `fig.to_html(...)` output supplies to `Plotly.newPlot(...)`
after the leading div id. -/
structure PlotlyFigure where
  newPlotArgs : String
  config : Option ConfigDict
  row : Int
  column : Int
  row_span : Int
  col_span : Int
  css_class : Option String
  fig_id : String
deriving DecidableEq

/-- `PlotlyFigure.__init__` (`src/needful/_html_objects/plotly_figure.py`,
lines 31-46, with the `css_class` parameter of the call site): stores the
figure and config, validates the placement, and records the generated
identifier — `token_hex(5)`, supplied here as `figId`. -/
def PlotlyFigure.init (figId : String) (newPlotArgs : String) (row column row_span col_span : Int) (css_class : Option String) (config : Option ConfigDict) : Except Err PlotlyFigure :=
  match checkAndSet row column row_span col_span css_class with
  | .error e => .error e
  | .ok p =>
  .ok { newPlotArgs := newPlotArgs, config := config, row := p.row, column := p.column, row_span := p.row_span, col_span := p.col_span, css_class := p.css_class, fig_id := figId }

/-- Modelled from the spec: the activation-statement producer of the Plotly
adapter (`get_plot_js` of the absent `_slide_mixins/_plotly_figure.py`; its
stale draft is `get_js` in `src/needful/_html_objects/plotly_figure.py`,
lines 48-74).  The source extracts the `Plotly.newPlot(...)` call from the
external `fig.to_html(...)` output and replaces the original div id with
`fig_id`; with that argument list held opaquely in `newPlotArgs`, the
result is the backend-specific draw statement keyed by the generated
identifier. -/
def PlotlyFigure.get_plot_js (pf : PlotlyFigure) : String :=
  "Plotly.newPlot(\"" ++ pf.fig_id ++ "\", " ++ pf.newPlotArgs ++ ")"

/-- `PlotlyFigure.get_div` (`src/needful/_html_objects/plotly_figure.py`,
lines 76-84): an empty container div tagged with the generated id. -/
def PlotlyFigure.get_div (pf : PlotlyFigure) : String :=
  "<div " ++ styleStr pf.row pf.column pf.row_span pf.col_span pf.css_class ++ " id=\"" ++ pf.fig_id ++ "\" class=\"plotdiv\"></div>"

/-- Modelled from the spec: the Bokeh adapter (`BokehFigure`), whose file is
absent from the source tree — only its caller `Slide.add_plot` and the
`js_plot_func`/`js_purge_func` consumers are present.  Per the backend
adapter contract it stores placement data and produces a markup fragment
plus an activation statement; `plot_js` holds that statement opaquely. -/
structure BokehFigure where
  plot_js : String
  row : Int
  column : Int
  row_span : Int
  col_span : Int
  css_class : Option String
  bokeh_theme : Option String
deriving DecidableEq

/-- Modelled from the spec: construction of the Bokeh adapter — placement
validation follows the shared `GridObject` contract. -/
def BokehFigure.init (plotJs : String) (row column row_span col_span : Int) (css_class : Option String) (bokeh_theme : Option String) : Except Err BokehFigure :=
  match checkAndSet row column row_span col_span css_class with
  | .error e => .error e
  | .ok p =>
  .ok { plot_js := plotJs, row := p.row, column := p.column, row_span := p.row_span, col_span := p.col_span, css_class := p.css_class, bokeh_theme := bokeh_theme }

/-- Modelled from the spec: the Bokeh adapter's activation statement. -/
def BokehFigure.get_plot_js (bf : BokehFigure) : String :=
  bf.plot_js

/-- Modelled from the spec: the Bokeh adapter's placeholder fragment. -/
def BokehFigure.get_div (bf : BokehFigure) : String :=
  "<div " ++ styleStr bf.row bf.column bf.row_span bf.col_span bf.css_class ++ "></div>"

/-- A CSS theme (`CSSTheme` in `src/needful/_css.py`, lines 41-73): a
key/value store of CSS variables with a stable random identifier.  Slides
hold shared references to it; the core uses only the identifier. -/
structure CSSTheme where
  id : String
  css_dict : List (String × String)
deriving DecidableEq

/-- The heterogeneous content units a slide owns.  The Python slide keeps a
plain list `self._elements` and distinguishes figures by class name
(`e.__class__.__name__ == "PlotlyFigure"` and the like); the constructors
of this sum play the role of those class tags. -/
inductive SlideElement where
  | text (tb : TextBox)
  | image (im : Image)
  | mplFig (mf : MPLFigure)
  | plotlyFig (pf : PlotlyFigure)
  | bokehFig (bf : BokehFigure)
deriving DecidableEq

/-- A slide (`Slide` in `src/needful/_slide.py`): configuration fields from
`__init__` (lines 92-163), the ordered element list `_elements`, and the
occupied-position list `_filled_pos`. -/
structure Slide where
  id : String
  title : String
  n_cols : Int
  menu_title : String
  theme : Option CSSTheme
  theme_id : Option String
  page_number : Option Bool
  nav_menu : Option Bool
  autoscale : Option Bool
  overflow : Option Bool
  disable_mathjax : Bool
  elements : List SlideElement
  filled_pos : List (Int × Int)
deriving DecidableEq

/-- The message of the `ValueError` raised by `Slide.__init__` on a
non-positive column count. -/
def columnsMsg (columns : Int) : String :=
  "columns = " ++ toString columns ++ ". Number of columns must be at least 1 or more."

/-- The message of the `ValueError` raised by `Slide.__init__` when both
the title and the menu title are blank. -/
def blankTitleMsg : String :=
  "Slide title and menu title are blank. If the title is to be left blank, then menu_title needs to be set."

/-- The identifier stored by `Slide.__init__` (lines 106-110): the
generated `token_hex(5)` — here `freshId` — when `id` is absent or blank,
otherwise `id` itself. -/
def slideId (freshId : String) : Option String → String
  | none => freshId
  | some i => if pyStrip i = "" then freshId else i

/-- `Slide.__init__` (`src/needful/_slide.py`, lines 92-163).  `freshId`
stands for the `token_hex(5)` identifier generated when `id` is absent or
blank.  `columns < 1` and the both-titles-blank case raise `ValueError`s —
the `ConfigurationError`s of the specification.  Lines 150-159 of the
source repeat the menu-title block of lines 120-129 verbatim on unchanged
local state, with an identical result, so the logic appears once here. -/
def Slide.init (freshId : String) (title : String) (columns : Int) (menu_title : Option String) (theme : Option CSSTheme) (page_number navigation_menu autoscale allow_overflow : Option Bool) (disable_mathjax : Bool) (id : Option String) : Except Err Slide :=
  if columns < 1 then
    .error (.configurationError (columnsMsg columns))
  else
    if pyStrip title = "" ∧ pyStrip (menu_title.getD "") = "" then
      .error (.configurationError blankTitleMsg)
    else
      .ok { id := slideId freshId id, title := title, n_cols := columns,
            menu_title := if pyStrip (menu_title.getD "") = "" then title else menu_title.getD "",
            theme := theme, theme_id := theme.map CSSTheme.id,
            page_number := page_number, nav_menu := navigation_menu,
            autoscale := autoscale, overflow := allow_overflow,
            disable_mathjax := disable_mathjax,
            elements := [], filled_pos := [] }

/-- The message of the `ValueError` raised by `Slide._check_grid_pos` on a
duplicate registration. -/
def occMsg (row column : Int) : String :=
  "An element is already present in row " ++ toString row ++ ", column " ++ toString column ++ " of this slide!"

/-- `Slide._check_grid_pos` (`src/needful/_slide.py`, lines 169-173): an
exact-pair occupancy check that ignores spans — a `ValueError` (the
specification's `PositionOccupied`) if `(row, column)` is already
registered, otherwise the pair is appended to `_filled_pos`.  The returned
slide carries exactly the mutation performed before any raise. -/
def Slide.check_grid_pos (s : Slide) (row column : Int) : Slide × Option Err :=
  if (row, column) ∈ s.filled_pos then
    (s, some (.positionOccupied (occMsg row column)))
  else
    ({ s with filled_pos := s.filled_pos ++ [(row, column)] }, none)

/-- The `self._check_grid_pos(row, column); self._elements.append(...)`
tail shared verbatim by `Slide.add_textbox`, `Slide.add_plot` and
`Slide.add_image`. -/
def Slide.register_and_append (s : Slide) (row column : Int) (e : SlideElement) : Slide × Option Err :=
  match s.check_grid_pos row column with
  | (s1, some err) => (s1, some err)
  | (s1, none) => ({ s1 with elements := s1.elements ++ [e] }, none)

/-- `Slide.add_textbox` (`src/needful/_slide.py`, lines 175-211): construct
the `TextBox` first, then register the position and append. -/
def Slide.add_textbox (s : Slide) (content : String) (row column row_span col_span : Int) (css_class : Option String) (markdown keep_linebreaks : Bool) : Slide × Option Err :=
  match TextBox.init content row column row_span col_span markdown keep_linebreaks css_class with
  | .error e => (s, some e)
  | .ok textbox => s.register_and_append row column (.text textbox)

/-- `Slide.add_image` (`src/needful/_slide.py`, lines 327-359): construct
the `Image` (whose constructor eagerly checks existence of the path
against the file-system model `fs`), then register the position and
append. -/
def Slide.add_image (s : Slide) (fs : List String) (image_path : String) (row column row_span col_span : Int) (width_pct : Int) (css_class : Option String) : Slide × Option Err :=
  match Image.init fs image_path row column row_span col_span width_pct css_class with
  | .error e => (s, some e)
  | .ok image => s.register_and_append row column (.image image)

/-- The opaque figure objects `Slide.add_plot` dispatches on.  The
constructor tag models which of the supported library names occurs in
`figure_object.__class__.__module__` (the `other` case models a module
containing none of them); `className` is `__class__.__name__`, used in the
error messages.  The capability booleans model the `hasattr` probes and —
for Bokeh — whether the external `json_item` call succeeds. -/
inductive FigureObject where
  | bokeh (className : String) (json_item_ok : Bool) (plotJs : String)
  | matplotlib (className : String) (has_get_figure has_savefig : Bool) (savefigOut : String)
  | plotly (className : String) (has_to_html : Bool) (newPlotArgs : String)
  | other (moduleName className : String)
deriving DecidableEq

/-- `Slide.add_plot` (`src/needful/_slide.py`, lines 213-325): dispatch on
the figure's originating library, run the branch's capability check and
adapter constructor, then register the position and append.  Unrecognised
or incapable objects raise `TypeError` before any grid mutation.  `figId`
stands for the `token_hex(5)` identifier the Plotly adapter generates;
`bokeh_err` is the message the external `json_item` failure carries. -/
def Slide.add_plot (s : Slide) (figId : String) (figure_object : FigureObject) (row column row_span col_span : Int) (css_class : Option String) (bokeh_theme : Option String) (bokeh_err : String) (matplotlib_params plotly_config : Option ConfigDict) : Slide × Option Err :=
  match figure_object with
  | .other _ className =>
    (s, some (.typeError ("Unknown figure_object passed to add_plot. Received figure of type " ++ className ++ ".")))
  | .bokeh _ json_item_ok plotJs =>
    if !json_item_ok then
      (s, some (.typeError ("Unknown Bokeh object passed to add_plot. Bokeh raised the following Exception:\n\t" ++ bokeh_err)))
    else
      match BokehFigure.init plotJs row column row_span col_span css_class bokeh_theme with
      | .error e => (s, some e)
      | .ok fig => s.register_and_append row column (.bokehFig fig)
  | .matplotlib className has_get_figure has_savefig savefigOut =>
    if !has_get_figure && !has_savefig then
      (s, some (.typeError ("Unknown Matplotlib object passed to add_plot. Please provide a valid matplotlib Figure or Axes object. Received object of type " ++ className ++ ".")))
    else
      match MPLFigure.init savefigOut row column row_span col_span css_class matplotlib_params with
      | .error e => (s, some e)
      | .ok fig => s.register_and_append row column (.mplFig fig)
  | .plotly className has_to_html newPlotArgs =>
    if !has_to_html then
      (s, some (.typeError ("Unknown Plotly object passed to add_plot. Please provide a valid plotly.graph_objs.Figure object. Received object of type " ++ className ++ ".")))
    else
      match PlotlyFigure.init figId newPlotArgs row column row_span col_span css_class plotly_config with
      | .error e => (s, some e)
      | .ok fig => s.register_and_append row column (.plotlyFig fig)

/-- `Slide._plotly_figs` (`src/needful/_slide.py`, lines 48-50): the
elements whose class is `PlotlyFigure`, in insertion order. -/
def Slide.plotly_figs (s : Slide) : List PlotlyFigure :=
  s.elements.filterMap fun e =>
    match e with
    | .plotlyFig pf => some pf
    | _ => none

/-- `Slide._bokeh_figs` (`src/needful/_slide.py`, lines 52-54). -/
def Slide.bokeh_figs (s : Slide) : List BokehFigure :=
  s.elements.filterMap fun e =>
    match e with
    | .bokehFig bf => some bf
    | _ => none

/-- `Slide.needs_plotly` (`src/needful/_slide.py`, lines 84-86). -/
def Slide.needs_plotly (s : Slide) : Bool :=
  s.plotly_figs.length > 0

/-- `Slide.needs_bokeh` (`src/needful/_slide.py`, lines 88-90). -/
def Slide.needs_bokeh (s : Slide) : Bool :=
  s.bokeh_figs.length > 0

/-- The external collaborators an element needs to render itself:
Markdown conversion, the two base64 encoders (path-keyed file read and
raw savefig output), and PIL's native image width. -/
structure RenderEnv where
  md : String → String
  b64 : String → String
  b64data : String → String
  imgWidth : String → Int

/-- `str(element)`, i.e. `GridObject.__str__` delegating to the variant's
`get_div` (`src/needful/_html_objects/grid_object.py`, lines 50-51). -/
def SlideElement.toStr (env : RenderEnv) : SlideElement → String
  | .text tb => tb.get_div env.md
  | .image im => im.get_div env.b64 env.imgWidth
  | .mplFig mf => mf.get_div env.b64data
  | .plotlyFig pf => pf.get_div
  | .bokehFig bf => bf.get_div

/-- `Slide.html` (`src/needful/_slide.py`, lines 56-59): the elements'
fragments joined by newlines, in insertion order. -/
def Slide.html (env : RenderEnv) (s : Slide) : String :=
  pyJoin ("\n") (s.elements.map (SlideElement.toStr env))

/-- `Slide.js_plot_func` (`src/needful/_slide.py`, lines 61-68): one
semicolon-terminated activation statement per figure, Bokeh figures first,
newline-joined; `"return"` when the slide has no figures. -/
def Slide.js_plot_func (s : Slide) : String :=
  let plots := s.bokeh_figs.map BokehFigure.get_plot_js ++ s.plotly_figs.map PlotlyFigure.get_plot_js
  if plots.length > 0 then
    pyJoin ("\n") (plots.map fun j => j ++ ";")
  else
    "return"

/-- `Slide.js_purge_func` (`src/needful/_slide.py`, lines 70-82): the
Bokeh global document clearing (when Bokeh is used), followed by one
`Plotly.purge` statement per Plotly figure; `"return"` when the slide has
no figures. -/
def Slide.js_purge_func (s : Slide) : String :=
  if s.needs_bokeh || s.needs_plotly then
    let purge1 := if s.needs_bokeh then "\nBokeh.documents.forEach((doc) => doc.clear());\nBokeh.documents.length = 0;" else ""
    let purge2 := if s.needs_plotly then pyJoin ("\n") (s.plotly_figs.map fun p => "Plotly.purge(\x27" ++ p.fig_id ++ "\x27);") else ""
    purge1 ++ purge2
  else
    "return"

/-- A presentation (`Presentation` in `src/needful/_presentation.py`,
fields assigned in `__init__`, lines 44-102).  `css_file` is the resolved
stylesheet path, `html_out` the mutable rendered-HTML cache (initially
empty), `css_themes` the deduplicated theme list. -/
structure Presentation where
  title : String
  css_file : String
  page_numbers : Bool
  nav_menu : Bool
  autoscale : Bool
  width : Int
  height : Int
  overflow : Bool
  mathjax : Bool
  html_out : String
  css_themes : List CSSTheme
  slides : List Slide

/-- `Presentation.add_slide` (`src/needful/_presentation.py`,
lines 104-117): append the slide; register its theme unless a theme with
the same identifier is already tracked. -/
def Presentation.add_slide (p : Presentation) (slide : Slide) : Presentation :=
  let p1 := { p with slides := p.slides ++ [slide] }
  match slide.theme with
  | none => p1
  | some t =>
    if t.id ∈ p1.css_themes.map CSSTheme.id then p1
    else { p1 with css_themes := p1.css_themes ++ [t] }

/-- The template-variable bundle built in `Presentation.generate_html`
(`src/needful/_presentation.py`, lines 166-180) and handed to the external
Jinja renderer. -/
structure TemplateVars where
  css_style : String
  slides : List Slide
  title : String
  size : Int × Int
  autoscale : Bool
  overflow : Bool
  mathjax : Bool
  plotly : Bool
  bokeh : String
  css_themes : List CSSTheme
  page_numbers : Bool
  nav_menu : Bool
  config_var : String

/-- The observable outcome of `Presentation.generate_html`: the
presentation state after the call, the files written (path and content),
whether a browser open was triggered, and the message printed by the
zero-slides soft-failure path. -/
structure RenderResult where
  pres : Presentation
  writes : List (String × String)
  opened : Bool
  message : Option String

/-- `Presentation.generate_html` (`src/needful/_presentation.py`,
lines 131-189).  With zero slides it prints and returns before touching
anything (lines 144-146).  Otherwise it computes the backend-presence
flags, reads the stylesheet (`readCss`, the external file read), renders
the external Jinja template on the variable bundle, caches the result in
`html_out`, writes it to `filename`, and optionally opens the browser.
`bokehCdn` stands for the external `bokeh.resources.CDN.render()`. -/
def Presentation.generate_html (p : Presentation) (filename : String) (open_file : Bool) (template : TemplateVars → String) (bokehCdn : String) (readCss : String → String) : RenderResult :=
  if p.slides.length = 0 then
    { pres := p, writes := [], opened := false, message := some ("No slides to render! Abort.") }
  else
    let needs_bokeh := p.slides.any Slide.needs_bokeh
    let bokeh_cdn := if needs_bokeh then bokehCdn else ""
    let needs_plotly := p.slides.any Slide.needs_plotly
    let css := readCss p.css_file
    let html := template
      { css_style := css, slides := p.slides, title := p.title,
        size := (p.width, p.height), autoscale := p.autoscale,
        overflow := p.overflow, mathjax := p.mathjax,
        plotly := needs_plotly, bokeh := bokeh_cdn,
        css_themes := p.css_themes, page_numbers := p.page_numbers,
        nav_menu := p.nav_menu, config_var := "needfulConfig" }
    { pres := { p with html_out := html }, writes := [(filename, html)], opened := open_file, message := none }

/-- One call to one of the three add operations of a slide, with all its
arguments (including the externally generated Plotly identifier for
`add_plot`). -/
inductive AddOp where
  | textbox (content : String) (row column row_span col_span : Int) (css_class : Option String) (markdown keep_linebreaks : Bool)
  | image (image_path : String) (row column row_span col_span : Int) (width_pct : Int) (css_class : Option String)
  | plot (figId : String) (figure_object : FigureObject) (row column row_span col_span : Int) (css_class : Option String) (bokeh_theme : Option String) (bokeh_err : String) (matplotlib_params plotly_config : Option ConfigDict)

/-- Dispatch an `AddOp` to the corresponding slide method. -/
def applyOp (fs : List String) (s : Slide) : AddOp → Slide × Option Err
  | .textbox content row column row_span col_span css_class markdown keep_linebreaks =>
    s.add_textbox content row column row_span col_span css_class markdown keep_linebreaks
  | .image image_path row column row_span col_span width_pct css_class =>
    s.add_image fs image_path row column row_span col_span width_pct css_class
  | .plot figId figure_object row column row_span col_span css_class bokeh_theme bokeh_err matplotlib_params plotly_config =>
    s.add_plot figId figure_object row column row_span col_span css_class bokeh_theme bokeh_err matplotlib_params plotly_config

/-- Run a sequence of add operations, stopping at the first failure (a
Python exception aborts the caller's sequence at that point). -/
def runOps (fs : List String) (s : Slide) : List AddOp → Slide × Option Err
  | [] => (s, none)
  | op :: ops =>
    match applyOp fs s op with
    | (s1, none) => runOps fs s1 ops
    | (s1, some e) => (s1, some e)

/-- The slide bookkeeping invariant: the element list and the
occupied-position list have the same length, and the occupied positions
are pairwise distinct. -/
def SlideInv (s : Slide) : Prop :=
  s.elements.length = s.filled_pos.length ∧ s.filled_pos.Nodup

/-- The bookkeeping invariant is checkable on concrete slides. -/
instance (s : Slide) : Decidable (SlideInv s) :=
  inferInstanceAs (Decidable (s.elements.length = s.filled_pos.length ∧ s.filled_pos.Nodup))

/-- Is this constructor outcome the `InvalidPlacement` error? -/
def isInvalidPlacementRes {α : Type} : Except Err α → Bool
  | .error (.invalidPlacement _) => true
  | _ => false

/-- Is this optional error the `InvalidPlacement` error? -/
def isInvalidPlacementOpt : Option Err → Bool
  | some (.invalidPlacement _) => true
  | _ => false

/-- Did this constructor step succeed? -/
def isOkRes {α : Type} : Except Err α → Bool
  | .ok _ => true
  | .error _ => false

/-- The `TextBox` that `TextBox.__init__` produces on valid placements:
the arguments as given, with the `css_class` run through the
`_check_and_set` normalisation and the `"textbox"` adjustment. -/
def textboxOf (content : String) (row column row_span col_span : Int) (markdown keep_linebreaks : Bool) (css_class : Option String) : TextBox :=
  { content := content, row := row, column := column, row_span := row_span, col_span := col_span,
    css_class := textboxify (cssNormalize css_class), markdown := markdown, keep_linebreaks := keep_linebreaks }

/-- A freshly constructed two-column slide used as a concrete test
fixture. -/
def slideFix : Slide :=
  { id := "s1", title := "Fixture", n_cols := 2, menu_title := "Fixture", theme := none,
    theme_id := none, page_number := none, nav_menu := none, autoscale := none,
    overflow := none, disable_mathjax := false, elements := [], filled_pos := [] }

/-- `slideFix` after a textbox spanning the 2 x 2 rectangle anchored at
(1, 1) has been added: only the anchor pair (1, 1) is registered. -/
def spanSlide : Slide :=
  (slideFix.add_textbox ("big") 1 1 2 2 none true true).fst

/-- Scenario fixture: an empty two-column slide. -/
def scenarioSlide0 : Slide :=
  { id := "s2", title := "Scenario", n_cols := 2, menu_title := "Scenario", theme := none,
    theme_id := none, page_number := none, nav_menu := none, autoscale := none,
    overflow := none, disable_mathjax := false, elements := [], filled_pos := [] }

/-- Scenario step 1: add a textbox at row 1, column 1. -/
def scenarioStep1 : Slide × Option Err :=
  scenarioSlide0.add_textbox ("hello") 1 1 1 1 none true true

/-- Scenario step 2: add a Plotly figure at row 1, column 2; the external
`token_hex(5)` identifier is `"a1b2c3d4e5"` and the extracted
`Plotly.newPlot` argument list is `"[]"`. -/
def scenarioStep2 : Slide × Option Err :=
  scenarioStep1.fst.add_plot ("a1b2c3d4e5") (FigureObject.plotly ("Figure") true ("[]")) 1 2 1 1 none none ("") none none

/-- The textbox element step 1 adds. -/
def scenarioText : TextBox :=
  { content := "hello", row := 1, column := 1, row_span := 1, col_span := 1,
    css_class := "textbox", markdown := true, keep_linebreaks := true }

/-- The Plotly element step 2 adds. -/
def scenarioFig : PlotlyFigure :=
  { newPlotArgs := "[]", config := none, row := 1, column := 2, row_span := 1, col_span := 1,
    css_class := none, fig_id := "a1b2c3d4e5" }

/-- A markdown-enabled textbox whose content carries a literal backtick. -/
def tbBacktick : TextBox :=
  { content := "a\x60b", row := 1, column := 1, row_span := 1, col_span := 1,
    css_class := "textbox", markdown := true, keep_linebreaks := true }

/-- A presentation with no slides. -/
def presFix : Presentation :=
  { title := "P", css_file := "default.css", page_numbers := true, nav_menu := true,
    autoscale := true, width := 1280, height := 720, overflow := false, mathjax := false,
    html_out := "", css_themes := [], slides := [] }

/-- A trivial stand-in for the external Jinja template. -/
def emptyTemplate : TemplateVars → String :=
  fun _ => ""

/-- A trivial stand-in for the external stylesheet read. -/
def emptyRead : String → String :=
  fun _ => ""

/-- A trivial render environment for concrete evaluations. -/
def idEnv : RenderEnv :=
  { md := fun t => t, b64 := fun _ => "", b64data := fun _ => "", imgWidth := fun _ => 0 }

/-- A concrete file-system model holding one image. -/
def fsFix : List String := ["img.png"]

/-- A concrete successful add sequence mixing all three operations. -/
def opsFix : List AddOp :=
  [AddOp.textbox ("a") 1 1 1 1 none true true,
   AddOp.image ("img.png") 2 1 1 1 100 none,
   AddOp.plot ("f1") (FigureObject.plotly ("Figure") true ("[]")) 1 2 1 1 none none ("") none none]

/-- A concrete single add operation. -/
def stepOp : AddOp := AddOp.textbox ("b") 2 2 1 1 none true true

theorem check_sanity_int_pos (var_name : String) (v : Int) (h : 1 ≤ v) :
    check_sanity_int var_name v = .ok () := by
  unfold check_sanity_int
  rw [if_neg (by omega)]

theorem checkAndSet_ok (row column row_span col_span : Int) (css : Option String)
    (hr : 1 ≤ row) (hc : 1 ≤ column) (hrs : 1 ≤ row_span) (hcs : 1 ≤ col_span) :
    checkAndSet row column row_span col_span css =
      .ok { row := row, column := column, row_span := row_span, col_span := col_span, css_class := cssNormalize css } := by
  unfold checkAndSet
  rw [check_sanity_int_pos _ _ hr, check_sanity_int_pos _ _ hc,
      check_sanity_int_pos _ _ hrs, check_sanity_int_pos _ _ hcs]

theorem checkAndSet_bad (row column row_span col_span : Int) (css : Option String)
    (h : row < 1 ∨ column < 1 ∨ row_span < 1 ∨ col_span < 1) :
    ∃ m, checkAndSet row column row_span col_span css = .error (.invalidPlacement m) := by
  unfold checkAndSet check_sanity_int
  by_cases h1 : row < 1
  · rw [if_pos h1]; exact ⟨_, rfl⟩
  · rw [if_neg h1]
    by_cases h2 : column < 1
    · rw [if_pos h2]; exact ⟨_, rfl⟩
    · rw [if_neg h2]
      by_cases h3 : row_span < 1
      · rw [if_pos h3]; exact ⟨_, rfl⟩
      · rw [if_neg h3]
        by_cases h4 : col_span < 1
        · rw [if_pos h4]; exact ⟨_, rfl⟩
        · rcases h with h | h | h | h
          exacts [(h1 h).elim, (h2 h).elim, (h3 h).elim, (h4 h).elim]

theorem backtick_not_mem_replaceCharList (new : List Char) (hnew : '\x60' ∉ new) :
    ∀ l : List Char, '\x60' ∉ replaceCharList '\x60' new l := by
  intro l
  induction l with
  | nil => simp [replaceCharList]
  | cons a t ih =>
    unfold replaceCharList
    by_cases ha : a = '\x60'
    · rw [if_pos ha]
      intro hmem
      rcases List.mem_append.mp hmem with h | h
      · exact hnew h
      · exact ih h
    · rw [if_neg ha]
      intro hmem
      rcases List.mem_cons.mp hmem with h | h
      · exact ha h.symm
      · exact ih h

theorem backtick_not_in_convertBackticks (s : String) :
    '\x60' ∉ (convertBackticks s).data :=
  backtick_not_mem_replaceCharList _ (by decide) s.data

theorem nil_isPrefixOf_char (l : List Char) : ([] : List Char).isPrefixOf l = true := by
  cases l <;> rfl

theorem listOccurs_of_isPrefixOf (p hay : List Char) (h : p.isPrefixOf hay = true) :
    listOccurs p hay = true := by
  cases hay with
  | nil =>
    cases p with
    | nil => rfl
    | cons c t => exact Bool.noConfusion h
  | cons c t =>
    unfold listOccurs
    rw [h]
    rfl

theorem listOccurs_cons (p : List Char) (c : Char) (t : List Char)
    (h : listOccurs p t = true) : listOccurs p (c :: t) = true := by
  unfold listOccurs
  rw [h]
  exact Bool.or_true _

theorem isPrefixOf_append_self (p : List Char) : ∀ post : List Char, p.isPrefixOf (p ++ post) = true := by
  induction p with
  | nil => intro post; exact nil_isPrefixOf_char post
  | cons a t ih =>
    intro post
    show ((a == a) && t.isPrefixOf (t ++ post)) = true
    rw [ih post, beq_self_eq_true]
    rfl

theorem listOccurs_parts (p post : List Char) :
    ∀ pre : List Char, listOccurs p (pre ++ (p ++ post)) = true := by
  intro pre
  induction pre with
  | nil => exact listOccurs_of_isPrefixOf _ _ (isPrefixOf_append_self p post)
  | cons a t ih => exact listOccurs_cons _ _ _ ih

theorem strOccurs_parts (pre p post : String) :
    strOccurs p (pre ++ p ++ post) = true := by
  unfold strOccurs
  have hd : (pre ++ p ++ post).data = pre.data ++ (p.data ++ post.data) := by
    simp [String.data_append]
  rw [hd]
  exact listOccurs_parts _ _ _

theorem register_and_append_of_not_mem (s : Slide) (row column : Int) (e : SlideElement)
    (h : (row, column) ∉ s.filled_pos) :
    s.register_and_append row column e =
      ({ s with filled_pos := s.filled_pos ++ [(row, column)], elements := s.elements ++ [e] }, none) := by
  unfold Slide.register_and_append Slide.check_grid_pos
  rw [if_neg h]

theorem register_and_append_occupied (s : Slide) (row column : Int) (e : SlideElement)
    (h : (row, column) ∈ s.filled_pos) :
    s.register_and_append row column e = (s, some (.positionOccupied (occMsg row column))) := by
  unfold Slide.register_and_append Slide.check_grid_pos
  rw [if_pos h]

theorem register_and_append_ok_inv (s s' : Slide) (row column : Int) (e : SlideElement)
    (h : s.register_and_append row column e = (s', none)) :
    (row, column) ∉ s.filled_pos ∧
    s' = { s with filled_pos := s.filled_pos ++ [(row, column)], elements := s.elements ++ [e] } := by
  by_cases hm : (row, column) ∈ s.filled_pos
  · rw [register_and_append_occupied _ _ _ _ hm] at h
    simp at h
  · rw [register_and_append_of_not_mem _ _ _ _ hm] at h
    exact ⟨hm, (congrArg Prod.fst h).symm⟩

theorem applyOp_ok_inv (fs : List String) (s s' : Slide) (op : AddOp)
    (h : applyOp fs s op = (s', none)) :
    ∃ rc e, rc ∉ s.filled_pos ∧
      s' = { s with filled_pos := s.filled_pos ++ [rc], elements := s.elements ++ [e] } := by
  cases op with
  | textbox content row column row_span col_span css_class markdown keep_linebreaks =>
    simp only [applyOp] at h
    unfold Slide.add_textbox at h
    split at h
    · simp at h
    · obtain ⟨hm, hs⟩ := register_and_append_ok_inv _ _ _ _ _ h
      exact ⟨_, _, hm, hs⟩
  | image image_path row column row_span col_span width_pct css_class =>
    simp only [applyOp] at h
    unfold Slide.add_image at h
    split at h
    · simp at h
    · obtain ⟨hm, hs⟩ := register_and_append_ok_inv _ _ _ _ _ h
      exact ⟨_, _, hm, hs⟩
  | plot figId figure_object row column row_span col_span css_class bokeh_theme bokeh_err mp pc =>
    simp only [applyOp] at h
    unfold Slide.add_plot at h
    split at h
    · simp at h
    · split at h
      · simp at h
      · split at h
        · simp at h
        · obtain ⟨hm, hs⟩ := register_and_append_ok_inv _ _ _ _ _ h
          exact ⟨_, _, hm, hs⟩
    · split at h
      · simp at h
      · split at h
        · simp at h
        · obtain ⟨hm, hs⟩ := register_and_append_ok_inv _ _ _ _ _ h
          exact ⟨_, _, hm, hs⟩
    · split at h
      · simp at h
      · split at h
        · simp at h
        · obtain ⟨hm, hs⟩ := register_and_append_ok_inv _ _ _ _ _ h
          exact ⟨_, _, hm, hs⟩

theorem applyOp_preserves_inv (fs : List String) (s s' : Slide) (op : AddOp)
    (h : applyOp fs s op = (s', none)) (hinv : SlideInv s) : SlideInv s' := by
  obtain ⟨rc, e, hm, rfl⟩ := applyOp_ok_inv fs s s' op h
  obtain ⟨hlen, hnd⟩ := hinv
  constructor
  · simp [hlen]
  · rw [List.nodup_append]
    refine ⟨hnd, List.nodup_singleton rc, ?_⟩
    intro a ha hb
    rw [List.mem_singleton] at hb
    exact hm (hb ▸ ha)

theorem applyOp_ok_lengths (fs : List String) (s s' : Slide) (op : AddOp)
    (h : applyOp fs s op = (s', none)) :
    s'.elements.length = s.elements.length + 1 ∧
    s'.filled_pos.length = s.filled_pos.length + 1 := by
  obtain ⟨rc, e, hm, rfl⟩ := applyOp_ok_inv fs s s' op h
  simp

theorem runOps_preserves_inv (fs : List String) (ops : List AddOp) :
    ∀ s s' : Slide, SlideInv s → runOps fs s ops = (s', none) → SlideInv s' := by
  induction ops with
  | nil =>
    intro s s' hinv h
    unfold runOps at h
    have hss : s = s' := congrArg Prod.fst h
    exact hss ▸ hinv
  | cons op ops ih =>
    intro s s' hinv h
    unfold runOps at h
    split at h
    · rename_i s1 heq
      exact ih s1 s' (applyOp_preserves_inv fs s s1 op heq hinv) h
    · simp at h

/-- C1: on every slide, for every valid argument tuple (non-empty content,
placement integers at least 1, any optional CSS class, any markdown and
linebreak flags), `Slide.add_textbox` succeeds whenever `(row, column)` is
not yet occupied: the `TextBox` is constructed, `(row, column)` is
registered, and exactly one element is appended to the element list. -/
theorem add_textbox_succeeds_on_free_position (s : Slide) (content : String)
    (row column row_span col_span : Int) (css_class : Option String) (markdown keep_linebreaks : Bool)
    (hcontent : content ≠ "") (hr : 1 ≤ row) (hc : 1 ≤ column) (hrs : 1 ≤ row_span) (hcs : 1 ≤ col_span)
    (hpos : (row, column) ∉ s.filled_pos) :
    TextBox.init content row column row_span col_span markdown keep_linebreaks css_class =
      .ok (textboxOf content row column row_span col_span markdown keep_linebreaks css_class) ∧
    s.add_textbox content row column row_span col_span css_class markdown keep_linebreaks =
      ({ s with filled_pos := s.filled_pos ++ [(row, column)],
                elements := s.elements ++ [SlideElement.text (textboxOf content row column row_span col_span markdown keep_linebreaks css_class)] }, none) := by
  have hinit : TextBox.init content row column row_span col_span markdown keep_linebreaks css_class =
      .ok (textboxOf content row column row_span col_span markdown keep_linebreaks css_class) := by
    unfold TextBox.init
    rw [checkAndSet_ok _ _ _ _ _ hr hc hrs hcs]
    rfl
  refine ⟨hinit, ?_⟩
  unfold Slide.add_textbox
  rw [hinit]
  exact register_and_append_of_not_mem _ _ _ _ hpos

/-- Witness for C1 at a concrete slide and argument tuple. -/
theorem add_textbox_succeeds_on_free_position_witness :
    TextBox.init ("hi") 1 2 1 1 true true none = .ok (textboxOf ("hi") 1 2 1 1 true true none) ∧
    slideFix.add_textbox ("hi") 1 2 1 1 none true true =
      ({ slideFix with filled_pos := slideFix.filled_pos ++ [(1, 2)],
                       elements := slideFix.elements ++ [SlideElement.text (textboxOf ("hi") 1 2 1 1 true true none)] }, none) :=
  add_textbox_succeeds_on_free_position slideFix ("hi") 1 2 1 1 none true true
    (by decide) (by decide) (by decide) (by decide) (by decide) (by decide)

/-- C3: duplicate registration of the exact pair `(row, column)` fails with
`PositionOccupied` regardless of the element kind (textbox, image with an
existing path, recognised Plotly figure), leaving the slide unchanged,
while adding at any pair not yet registered succeeds — the collision check
is exact-pair only and ignores the spans of earlier elements. -/
theorem exact_pair_collision_only (s : Slide) (fs : List String)
    (path content figId args berr : String)
    (row column row2 column2 rs2 cs2 : Int) (css : Option String)
    (hr : 1 ≤ row) (hc : 1 ≤ column) (hpath : path ∈ fs)
    (hocc : (row, column) ∈ s.filled_pos)
    (hr2 : 1 ≤ row2) (hc2 : 1 ≤ column2) (hrs2 : 1 ≤ rs2) (hcs2 : 1 ≤ cs2)
    (hfree : (row2, column2) ∉ s.filled_pos) :
    s.add_textbox content row column 1 1 css true true = (s, some (.positionOccupied (occMsg row column))) ∧
    s.add_image fs path row column 1 1 100 css = (s, some (.positionOccupied (occMsg row column))) ∧
    s.add_plot figId (FigureObject.plotly ("Figure") true args) row column 1 1 css none berr none none =
      (s, some (.positionOccupied (occMsg row column))) ∧
    (s.add_textbox content row2 column2 rs2 cs2 css true true).snd = none := by
  have hone : (1 : Int) ≤ 1 := le_refl 1
  refine ⟨?_, ?_, ?_, ?_⟩
  · unfold Slide.add_textbox TextBox.init
    rw [checkAndSet_ok _ _ _ _ _ hr hc hone hone]
    exact register_and_append_occupied _ _ _ _ hocc
  · unfold Slide.add_image Image.init check_exists
    rw [if_pos hpath, checkAndSet_ok _ _ _ _ _ hr hc hone hone]
    exact register_and_append_occupied _ _ _ _ hocc
  · unfold Slide.add_plot PlotlyFigure.init
    rw [checkAndSet_ok _ _ _ _ _ hr hc hone hone]
    exact register_and_append_occupied _ _ _ _ hocc
  · unfold Slide.add_textbox TextBox.init
    rw [checkAndSet_ok _ _ _ _ _ hr2 hc2 hrs2 hcs2]
    exact congrArg Prod.snd
      (register_and_append_of_not_mem s row2 column2
        (SlideElement.text (textboxOf content row2 column2 rs2 cs2 true true css)) hfree)

/-- Witness for C3: on a slide holding a textbox that spans the 2 x 2
rectangle anchored at (1, 1), re-adding at the exact pair (1, 1) fails for
every element kind, while adding at (1, 2) — strictly inside the earlier
element's spanned rectangle — succeeds. -/
theorem exact_pair_collision_only_witness :
    spanSlide.add_textbox ("t") 1 1 1 1 none true true = (spanSlide, some (.positionOccupied (occMsg 1 1))) ∧
    spanSlide.add_image [("img.png")] ("img.png") 1 1 1 1 100 none = (spanSlide, some (.positionOccupied (occMsg 1 1))) ∧
    spanSlide.add_plot ("f1") (FigureObject.plotly ("Figure") true ("[]")) 1 1 1 1 none none ("") none none =
      (spanSlide, some (.positionOccupied (occMsg 1 1))) ∧
    (spanSlide.add_textbox ("t") 1 2 1 1 none true true).snd = none :=
  exact_pair_collision_only spanSlide [("img.png")] ("img.png") ("t") ("f1") ("[]") ("")
    1 1 1 2 1 1 none (by decide) (by decide) (by decide) (by decide)
    (by decide) (by decide) (by decide) (by decide) (by decide)

/-- C4 counterexample: two GridElement variants constructed with a
non-positive row (0) fail with an error other than `InvalidPlacement` —
the Image variant with a path that does not exist fails with
`ResourceNotFound` (the eager existence check of `Image.__init__` runs
before `_check_and_set`), and the Matplotlib variant with
`config = dict(format="pdf")` fails with the PDF `ValueError` (the format
check of `MPLFigure.__init__` runs before `_check_and_set`). -/
theorem invalid_placement_counterexample :
    Image.init [] ("missing.png") 0 1 1 1 100 none =
      .error (.resourceNotFound (notFoundMsg ("Image") ("missing.png"))) ∧
    isInvalidPlacementRes (Image.init [] ("missing.png") 0 1 1 1 100 none) = false ∧
    MPLFigure.init ("bytes") 0 1 1 1 none (some [(("format"), ("pdf"))]) =
      .error (.valueErr pdfMsg) ∧
    isInvalidPlacementRes (MPLFigure.init ("bytes") 0 1 1 1 none (some [(("format"), ("pdf"))])) = false := by
  decide

/-- C4 (amended): with non-positive placement values, construction of
every GridElement variant fails and no element is added to a slide; the
error is `InvalidPlacement` for the Text, Plotly and Bokeh variants
always, for the Image variant whenever its path exists (a missing path
reports `ResourceNotFound` first, since the existence check precedes
placement validation), and for the Matplotlib variant whenever its format
option is accepted (`format="pdf"` reports the PDF `ValueError` first,
since the format check — like the external `savefig` call — precedes
placement validation).  `Slide.add_textbox` with such values fails with
`InvalidPlacement` before mutating the slide. -/
theorem invalid_placement_fail_fast (s : Slide) (fs : List String)
    (content path figId args plotJs savefigOut : String)
    (row column row_span col_span : Int) (css bt : Option String) (md kl : Bool)
    (mp : Option ConfigDict)
    (hbad : row < 1 ∨ column < 1 ∨ row_span < 1 ∨ col_span < 1) (hpath : path ∈ fs)
    (hfmt : isOkRes (mplFormat mp) = true) :
    isInvalidPlacementRes (TextBox.init content row column row_span col_span md kl css) = true ∧
    isInvalidPlacementRes (Image.init fs path row column row_span col_span 100 css) = true ∧
    isInvalidPlacementRes (PlotlyFigure.init figId args row column row_span col_span css none) = true ∧
    isInvalidPlacementRes (BokehFigure.init plotJs row column row_span col_span css bt) = true ∧
    isInvalidPlacementRes (MPLFigure.init savefigOut row column row_span col_span css mp) = true ∧
    (s.add_textbox content row column row_span col_span css md kl).fst = s ∧
    isInvalidPlacementOpt (s.add_textbox content row column row_span col_span css md kl).snd = true := by
  obtain ⟨m, hm⟩ := checkAndSet_bad row column row_span col_span css hbad
  refine ⟨?_, ?_, ?_, ?_, ?_, ?_, ?_⟩
  · unfold TextBox.init
    rw [hm]
    rfl
  · unfold Image.init check_exists
    rw [if_pos hpath, hm]
    rfl
  · unfold PlotlyFigure.init
    rw [hm]
    rfl
  · unfold BokehFigure.init
    rw [hm]
    rfl
  · cases hfm : mplFormat mp with
    | error e =>
      rw [hfm] at hfmt
      exact Bool.noConfusion hfmt
    | ok fmt =>
      unfold MPLFigure.init
      rw [hfm, hm]
      rfl
  · unfold Slide.add_textbox TextBox.init
    rw [hm]
  · unfold Slide.add_textbox TextBox.init
    rw [hm]
    rfl

/-- Witness for C4 (amended) at row 0, an existing image path and an
accepted (absent) Matplotlib format option. -/
theorem invalid_placement_fail_fast_witness :
    isInvalidPlacementRes (TextBox.init ("t") 0 1 1 1 true true none) = true ∧
    isInvalidPlacementRes (Image.init [("img.png")] ("img.png") 0 1 1 1 100 none) = true ∧
    isInvalidPlacementRes (PlotlyFigure.init ("f1") ("[]") 0 1 1 1 none none) = true ∧
    isInvalidPlacementRes (BokehFigure.init ("js") 0 1 1 1 none none) = true ∧
    isInvalidPlacementRes (MPLFigure.init ("bytes") 0 1 1 1 none none) = true ∧
    (slideFix.add_textbox ("t") 0 1 1 1 none true true).fst = slideFix ∧
    isInvalidPlacementOpt (slideFix.add_textbox ("t") 0 1 1 1 none true true).snd = true :=
  invalid_placement_fail_fast slideFix [("img.png")] ("t") ("img.png") ("f1") ("[]") ("js") ("bytes")
    0 1 1 1 none none true true none (by decide) (by decide) (by decide)

/-- C5: `Slide.add_image` with a path that refers to no existing file fails
with `ResourceNotFound`, whose message names the expected path, and
returns the slide unchanged — no element is appended and no position is
registered, since `Image.__init__` raises before `_check_grid_pos` and the
append run. -/
theorem add_image_missing_path (s : Slide) (fs : List String) (path : String)
    (row column row_span col_span width_pct : Int) (css : Option String)
    (h : path ∉ fs) :
    s.add_image fs path row column row_span col_span width_pct css =
      (s, some (.resourceNotFound (notFoundMsg ("Image") path))) ∧
    strOccurs path (notFoundMsg ("Image") path) = true := by
  constructor
  · unfold Slide.add_image Image.init check_exists
    rw [if_neg h]
  · exact strOccurs_parts ("Image" ++ " not found at ") path (".")

/-- Witness for C5 at a concrete slide and missing path. -/
theorem add_image_missing_path_witness :
    slideFix.add_image [] ("missing.png") 1 1 1 1 100 none =
      (slideFix, some (.resourceNotFound (notFoundMsg ("Image") ("missing.png")))) ∧
    strOccurs ("missing.png") (notFoundMsg ("Image") ("missing.png")) = true :=
  add_image_missing_path slideFix [] ("missing.png") 1 1 1 1 100 none (by decide)

/-- C2: on a two-column slide holding a textbox added at (1, 1) and then a
recognised Plotly figure added at (1, 2), both adds succeed, the rendered
HTML is the two elements' fragments joined in insertion order, the
activation script is exactly the one Plotly draw statement referencing the
figure's generated identifier (terminated by the semicolon
`js_plot_func` appends), and the teardown script is the matching
`Plotly.purge` statement for that identifier. -/
theorem mixed_slide_scenario (env : RenderEnv) :
    scenarioStep1.snd = none ∧
    scenarioStep2.snd = none ∧
    scenarioStep2.fst.elements = [SlideElement.text scenarioText, SlideElement.plotlyFig scenarioFig] ∧
    scenarioStep2.fst.html env = scenarioText.get_div env.md ++ "\n" ++ scenarioFig.get_div ∧
    scenarioStep2.fst.js_plot_func = scenarioFig.get_plot_js ++ ";" ∧
    scenarioStep2.fst.js_plot_func = "Plotly.newPlot(\"a1b2c3d4e5\", []);" ∧
    countOccurr ("Plotly.newPlot(").data scenarioStep2.fst.js_plot_func.data = 1 ∧
    strOccurs ("a1b2c3d4e5") scenarioStep2.fst.js_plot_func = true ∧
    scenarioStep2.fst.js_purge_func = "Plotly.purge(\x27a1b2c3d4e5\x27);" ∧
    strOccurs ("a1b2c3d4e5") scenarioStep2.fst.js_purge_func = true := by
  refine ⟨by decide, by decide, by decide, ?_, by decide, by decide, by decide, by decide, by decide, by decide⟩
  rfl

/-- C6: a markdown-enabled textbox renders as its placement div around the
Markdown-converted content with every literal backtick replaced by its
HTML entity; the replacement runs after the Markdown conversion, and the
converted text contains no backtick at all. -/
theorem textbox_backtick_entity (md : String → String) (tb : TextBox) (h : tb.markdown = true) :
    tb.get_div md =
      "<div " ++ styleStr tb.row tb.column tb.row_span tb.col_span (some tb.css_class) ++ ">" ++ convertBackticks (md tb.content) ++ "</div>" ∧
    '\x60' ∉ (convertBackticks (md tb.content)).data := by
  constructor
  · unfold TextBox.get_div
    rw [h]
    simp
  · exact backtick_not_in_convertBackticks _

/-- Witness for C6 on a concrete backtick-carrying textbox with the
identity Markdown stand-in. -/
theorem textbox_backtick_entity_witness :
    tbBacktick.get_div idEnv.md =
      "<div " ++ styleStr tbBacktick.row tbBacktick.column tbBacktick.row_span tbBacktick.col_span (some tbBacktick.css_class) ++ ">" ++ convertBackticks (idEnv.md tbBacktick.content) ++ "</div>" ∧
    '\x60' ∉ (convertBackticks (idEnv.md tbBacktick.content)).data :=
  textbox_backtick_entity idEnv.md tbBacktick rfl

/-- C7 counterexample: an Image constructed with the empty string as its
CSS class stores the empty string, not `None` — Python's truthiness guard
in `_check_and_set` skips the blank-normalisation for the empty string. -/
theorem css_class_blank_counterexample :
    Image.init [("img.png")] ("img.png") 1 1 1 1 100 (some ("")) =
      .ok { image_file := "img.png", row := 1, column := 1, row_span := 1, col_span := 1, css_class := some (""), width_pct := 100 } ∧
    cssNormalize (some ("")) = some ("") ∧
    (some ("") : Option String) ≠ none := by
  decide

/-- C7 (amended): `_check_and_set` normalises a nonempty, all-whitespace
CSS class to `None`, passes `None` and the empty string through unchanged,
and stores non-blank strings as given; Image stores exactly this
normalised value, while TextBox afterwards appends the `"textbox"` class
to any truthy class string not already containing it. -/
theorem css_class_normalization (s : String) (fs : List String) (path content : String)
    (css : Option String) (hpath : path ∈ fs) (md kl : Bool) :
    cssNormalize none = none ∧
    cssNormalize (some ("")) = some ("") ∧
    (s ≠ "" → pyStrip s = "" → cssNormalize (some s) = none) ∧
    (pyStrip s ≠ "" → cssNormalize (some s) = some s) ∧
    Except.map Image.css_class (Image.init fs path 1 1 1 1 100 css) = .ok (cssNormalize css) ∧
    (pyStrip s ≠ "" → strOccurs ("textbox") s = false →
      Except.map TextBox.css_class (TextBox.init content 1 1 1 1 md kl (some s)) = .ok (s ++ " textbox")) := by
  refine ⟨rfl, by decide, ?_, ?_, ?_, ?_⟩
  · intro h1 h2
    show (if s = "" then some "" else if pyStrip s = "" then none else some s) = none
    rw [if_neg h1, if_pos h2]
  · intro h
    have hs : s ≠ "" := fun e => h (by rw [e]; decide)
    show (if s = "" then some "" else if pyStrip s = "" then none else some s) = some s
    rw [if_neg hs, if_neg h]
  · unfold Image.init check_exists
    rw [if_pos hpath, checkAndSet_ok _ _ _ _ _ (le_refl 1) (le_refl 1) (le_refl 1) (le_refl 1)]
    rfl
  · intro h1 h2
    have hs : s ≠ "" := fun e => h1 (by rw [e]; decide)
    have hnorm : cssNormalize (some s) = some s := by
      show (if s = "" then some "" else if pyStrip s = "" then none else some s) = some s
      rw [if_neg hs, if_neg h1]
    have htb : textboxify (cssNormalize (some s)) = s ++ " textbox" := by
      rw [hnorm]
      show (if s = "" then "textbox" else if strOccurs ("textbox") s = true then s else s ++ " textbox") = s ++ " textbox"
      rw [if_neg hs]
      simp [h2]
    unfold TextBox.init
    rw [checkAndSet_ok _ _ _ _ _ (le_refl 1) (le_refl 1) (le_refl 1) (le_refl 1)]
    show Except.ok (textboxify (cssNormalize (some s))) = Except.ok (s ++ " textbox")
    rw [htb]

/-- Witness for C7 (amended) at concrete class strings. -/
theorem css_class_normalization_witness :
    cssNormalize (some ("  ")) = none ∧
    cssNormalize (some ("c1 c2")) = some ("c1 c2") ∧
    Except.map Image.css_class (Image.init [("img.png")] ("img.png") 1 1 1 1 100 (some ("  "))) = .ok none ∧
    Except.map TextBox.css_class (TextBox.init ("t") 1 1 1 1 true true (some ("c1 c2"))) = .ok ("c1 c2" ++ " textbox") :=
  ⟨(css_class_normalization ("  ") [("img.png")] ("img.png") ("t") (some ("  ")) (by decide) true true).2.2.1 (by decide) (by decide),
   (css_class_normalization ("c1 c2") [("img.png")] ("img.png") ("t") (some ("  ")) (by decide) true true).2.2.2.1 (by decide),
   (css_class_normalization ("  ") [("img.png")] ("img.png") ("t") (some ("  ")) (by decide) true true).2.2.2.2.1,
   (css_class_normalization ("c1 c2") [("img.png")] ("img.png") ("t") (some ("  ")) (by decide) true true).2.2.2.2.2 (by decide) (by decide)⟩

/-- C8: constructing a slide with a blank title and an absent-or-blank
menu title fails with a `ConfigurationError`; with a blank title and a
non-blank menu title it succeeds and stores the menu title; with a
non-blank title and a blank menu title the menu title falls back to the
title. -/
theorem slide_title_configuration (freshId title : String) (menu_title : Option String)
    (columns : Int) (theme : Option CSSTheme) (pn nm asc ovf : Option Bool) (dm : Bool)
    (sid : Option String) (hcols : 1 ≤ columns) :
    (pyStrip title = "" → pyStrip (menu_title.getD "") = "" →
      Slide.init freshId title columns menu_title theme pn nm asc ovf dm sid =
        .error (.configurationError blankTitleMsg)) ∧
    (pyStrip title = "" → pyStrip (menu_title.getD "") ≠ "" →
      Except.map Slide.menu_title (Slide.init freshId title columns menu_title theme pn nm asc ovf dm sid) =
        .ok (menu_title.getD "")) ∧
    (pyStrip title ≠ "" → pyStrip (menu_title.getD "") = "" →
      Except.map Slide.menu_title (Slide.init freshId title columns menu_title theme pn nm asc ovf dm sid) =
        .ok title) := by
  have hc : ¬(columns < 1) := by omega
  refine ⟨?_, ?_, ?_⟩
  · intro h1 h2
    unfold Slide.init
    rw [if_neg hc, if_pos ⟨h1, h2⟩]
  · intro h1 h2
    unfold Slide.init
    rw [if_neg hc, if_neg (fun hh => h2 hh.2)]
    show Except.ok (if pyStrip (menu_title.getD "") = "" then title else menu_title.getD "") = _
    rw [if_neg h2]
  · intro h1 h2
    unfold Slide.init
    rw [if_neg hc, if_neg (fun hh => h1 hh.1)]
    show Except.ok (if pyStrip (menu_title.getD "") = "" then title else menu_title.getD "") = _
    rw [if_pos h2]

/-- Witness for C8 at concrete titles: both blank, blank title with a menu
title, and a title with no menu title. -/
theorem slide_title_configuration_witness :
    Slide.init ("fresh") ("") 2 none none none none none none false none =
      .error (.configurationError blankTitleMsg) ∧
    Except.map Slide.menu_title (Slide.init ("fresh") ("") 2 (some ("Menu")) none none none none none false none) =
      .ok ("Menu") ∧
    Except.map Slide.menu_title (Slide.init ("fresh") ("T") 2 none none none none none none false none) =
      .ok ("T") :=
  ⟨(slide_title_configuration ("fresh") ("") none 2 none none none none none false none (by decide)).1 (by decide) (by decide),
   (slide_title_configuration ("fresh") ("") (some ("Menu")) 2 none none none none none false none (by decide)).2.1 (by decide) (by decide),
   (slide_title_configuration ("fresh") ("T") none 2 none none none none none false none (by decide)).2.2 (by decide) (by decide)⟩

/-- C9: rendering a presentation whose slide list is empty writes no file,
opens no browser, raises nothing, prints the nothing-to-render message,
and leaves the presentation — including its cached rendered HTML —
unchanged. -/
theorem render_zero_slides (p : Presentation) (filename : String) (open_file : Bool)
    (template : TemplateVars → String) (bokehCdn : String) (readCss : String → String)
    (h : p.slides = []) :
    p.generate_html filename open_file template bokehCdn readCss =
      { pres := p, writes := [], opened := false, message := some ("No slides to render! Abort.") } := by
  unfold Presentation.generate_html
  rw [if_pos (show p.slides.length = 0 by rw [h]; rfl)]

/-- Witness for C9 on a concrete empty presentation. -/
theorem render_zero_slides_witness :
    presFix.generate_html ("out.html") true emptyTemplate ("") emptyRead =
      { pres := presFix, writes := [], opened := false, message := some ("No slides to render! Abort.") } :=
  render_zero_slides presFix ("out.html") true emptyTemplate ("") emptyRead rfl

/-- C10: starting from a slide satisfying the bookkeeping invariant (in
particular a freshly constructed slide, whose element and position lists
are empty), any successful sequence of add operations preserves it: the
element count equals the registered-position count and the registered
positions are pairwise distinct; moreover every single successful add
appends exactly one element and registers exactly one position. -/
theorem slide_bookkeeping_invariant (fs : List String) (s s' t t' : Slide)
    (ops : List AddOp) (op : AddOp)
    (hinv : SlideInv s) (hrun : runOps fs s ops = (s', none))
    (hstep : applyOp fs t op = (t', none)) :
    SlideInv s' ∧
    t'.elements.length = t.elements.length + 1 ∧
    t'.filled_pos.length = t.filled_pos.length + 1 :=
  ⟨runOps_preserves_inv fs ops s s' hinv hrun,
   (applyOp_ok_lengths fs t t' op hstep).1,
   (applyOp_ok_lengths fs t t' op hstep).2⟩

/-- Witness for C10 on a concrete three-operation sequence (textbox, image,
Plotly figure) and a concrete single step. -/
theorem slide_bookkeeping_invariant_witness :
    SlideInv (runOps fsFix slideFix opsFix).fst ∧
    ((applyOp fsFix slideFix stepOp).fst).elements.length = slideFix.elements.length + 1 ∧
    ((applyOp fsFix slideFix stepOp).fst).filled_pos.length = slideFix.filled_pos.length + 1 :=
  slide_bookkeeping_invariant fsFix slideFix (runOps fsFix slideFix opsFix).fst slideFix
    (applyOp fsFix slideFix stepOp).fst opsFix stepOp (by decide) (by decide) (by decide)

end Needful



